import Mathlib

/-!
Shallow embedding of the flask-backend repository (src/app.py, src/static.py,
src/constants.py, src/mongo_collection.py) for checking its natural-language
specification.

Python dictionaries are modelled as association lists preserving insertion
order; Python runtime errors (TypeError, KeyError) that the code can raise
are modelled with `Except PyError`.
-/

/-- Python runtime errors relevant to this code base. -/
inductive PyError
  | typeError
  | keyError
deriving DecidableEq

/-- The exact `type(...)` tags the validation templates use
(`str`, `int`, `bool`, `list`) plus `NoneType` for `None` values. -/
inductive PyType
  | tstr
  | tint
  | tbool
  | tlist
  | tnone
deriving DecidableEq

/-- Python values appearing in this code base's documents: strings, ints,
booleans, lists of document ids (the `bills` back-link lists), and `None`. -/
inductive PyValue
  | vstr (s : String)
  | vint (n : Int)
  | vbool (b : Bool)
  | vlist (elems : List String)
  | vnone
deriving DecidableEq

/-- `type(v)` for an embedded value (`type(True) is int` is false in Python,
and the constructors here are distinct accordingly). -/
def PyValue.type : PyValue → PyType
  | .vstr _ => .tstr
  | .vint _ => .tint
  | .vbool _ => .tbool
  | .vlist _ => .tlist
  | .vnone => .tnone

/-- Python truthiness of the embedded values. -/
def PyValue.truthy : PyValue → Bool
  | .vstr s => !(s == "")
  | .vint n => !(n == 0)
  | .vbool b => b
  | .vlist l => !l.isEmpty
  | .vnone => false

/-- A Python dict document: association list of field name to value,
in insertion order (keys unique in every dict the program builds). -/
abbrev Document := List (String × PyValue)

/-- A validation template (`constants.py`): field name to expected type. -/
abbrev Template := List (String × PyType)

/-- `document[field]` as an optional lookup (`none` models `KeyError`). -/
def docLookup (d : Document) (k : String) : Option PyValue :=
  match d with
  | [] => none
  | (k', v) :: rest => if k' == k then some v else docLookup rest k

/-- `template[field]` lookup. -/
def tmplLookup (t : Template) (k : String) : Option PyType :=
  match t with
  | [] => none
  | (k', ty) :: rest => if k' == k then some ty else tmplLookup rest k

/-- `dict[key] = value`: in-place field assignment, appending when absent. -/
def docSet (d : Document) (k : String) (v : PyValue) : Document :=
  if (docLookup d k).isSome then
    d.map (fun kv => if kv.1 == k then (k, v) else kv)
  else
    d ++ [(k, v)]

/-- `strict_validation` inner function of `valid_doc_datatype`
(src/static.py lines 19-27, src/app.py lines 130-138): for every template
field, the document must hold it (else `KeyError` → `False`) with
`type(document[field]) is template[field]`.  Fields of the document that are
not in the template are never examined. -/
def strict_validation (document : Document) (template : Template) : Bool :=
  template.all fun kv =>
    match docLookup document kv.1 with
    | some v => v.type == kv.2
    | none => false

/-- `non_strict_validation` inner function of `valid_doc_datatype`
(src/static.py lines 29-37, src/app.py lines 140-148): template fields
missing from the document are skipped (`KeyError` → `pass`); present
template fields must match; document fields outside the template are never
examined. -/
def non_strict_validation (document : Document) (template : Template) : Bool :=
  template.all fun kv =>
    match docLookup document kv.1 with
    | some v => v.type == kv.2
    | none => true

/-- `valid_doc_datatype(document, template, strict)` (src/static.py,
src/app.py). -/
def valid_doc_datatype (document : Document) (template : Template)
    (strict : Bool := true) : Bool :=
  if strict then strict_validation document template
  else non_strict_validation document template

/-- Keys of a document. -/
def docKeys (d : Document) : List String := d.map Prod.fst

/-- Keys of a template. -/
def tmplKeys (t : Template) : List String := t.map Prod.fst

/-- Modelled from the spec's words for strict mode, for comparison with
the code: valid iff the document's key set exactly matches the template's
key set (same keys, same size) and the value under every key has the kind
the template assigns to that key. -/
def strict_spec_valid (document : Document) (template : Template) : Bool :=
  (docKeys document).all (fun k => (tmplKeys template).contains k) &&
  (tmplKeys template).all (fun k => (docKeys document).contains k) &&
  (document.length == template.length) &&
  (template.all fun kv =>
    match docLookup document kv.1 with
    | some v => v.type == kv.2
    | none => false)

/-- Modelled from the spec's words for non-strict mode, for comparison with
the code: valid iff every key present in the document is also present in the
template with a value of the matching kind. -/
def non_strict_spec_valid (document : Document) (template : Template) : Bool :=
  document.all fun kv =>
    match tmplLookup template kv.1 with
    | some ty => kv.2.type == ty
    | none => false

/-- `USERNAME_LENGTH = (4,37)` (src/constants.py line 37): the arguments of
`range(*USERNAME_LENGTH)`. -/
def USERNAME_LENGTH : Nat × Nat := (4, 37)

/-- `valid_username` (src/app.py lines 196-209).  The first guard returns
`False` when `len(username)` is outside `range(4, 37)`.  The final line is
`len(c for c in username if c not in USERNAME_ALLOWED_CHARS) == 0`: Python's
`len` applied to a generator object raises `TypeError` unconditionally, so
every username that passes the length guard raises instead of returning. -/
def valid_username (username : String) : Except PyError Bool :=
  if username.length < USERNAME_LENGTH.1 ∨ USERNAME_LENGTH.2 ≤ username.length then
    .ok false
  else
    .error .typeError

/-- One entry of the `logged_ips` session map (src/app.py): last-activity
timestamp, logged user's id (`None` for anonymous entries), logged flag. -/
structure LogEntry where
  lastrequest : Int
  user : Option String
  logged : Bool
deriving DecidableEq

/-- `LOG_TIMEOUT = 30` (src/constants.py line 18). -/
def LOG_TIMEOUT : Int := 30

/-- `timeout_check` (src/app.py lines 75-81): deletes from the session map
every entry with `time() - entry["lastrequest"] > LOG_TIMEOUT`.  The map is
an association list keyed by IP address; `now` is the value of `time()`. -/
def timeout_check (now : Int) (logged_ips : List (String × LogEntry)) :
    List (String × LogEntry) :=
  logged_ips.filter (fun kv => !(LOG_TIMEOUT < now - kv.2.lastrequest))

/-- A document of the `users` collection: every user the program inserts
(`create_user`, src/app.py lines 719-742) carries exactly `_id`, `username`,
`password` and the boolean `admin` flag. -/
structure UserDoc where
  _id : String
  username : String
  password : String
  admin : Bool
deriving DecidableEq

/-- `users.find(id)` for a string id: `Collection.find`
(src/mongo_collection.py) matches on `_id`, returning `None` when absent. -/
def usersFind (users : List UserDoc) (id : String) : Option UserDoc :=
  users.find? (fun u => u._id == id)

/-- `users.update(id, info)` (src/mongo_collection.py `Collection.update`):
replaces the body of the document whose `_id` matches; the stored `_id`
itself is kept. -/
def usersUpdate (users : List UserDoc) (id : String) (info : UserDoc) :
    List UserDoc :=
  users.map (fun u => if u._id == id then { info with _id := u._id } else u)

/-- `is_admin(user_id)` (src/app.py lines 28-41): `users.find(user_id)["admin"]`,
with the `TypeError` of subscripting a `None` result caught as `False`. -/
def is_admin (users : List UserDoc) (u_id : String) : Bool :=
  match usersFind users u_id with
  | some u => u.admin
  | none => false

/-- `USER_RESTRICTED_ROUTES` (src/constants.py lines 30-34). -/
def USER_RESTRICTED_ROUTES : List String := ["clients", "client", "bills"]

/-- Splits a list of characters at every occurrence of `c`
(the semantics of Python's `str.split`). -/
def splitOnChar (c : Char) : List Char → List (List Char)
  | [] => [[]]
  | x :: xs =>
    let r := splitOnChar c xs
    if x == c then [] :: r
    else
      match r with
      | [] => [[x]]
      | seg :: segs => (x :: seg) :: segs

/-- `request.path.split("/")[1]` as used by `has_restrict_access`,
`route_is_private` and `route_is_only_admin` (src/app.py).  Request paths
always begin with `/`, so index 1 exists. -/
def pathSegment1 (path : String) : String :=
  String.mk (((splitOnChar (Char.ofNat 47) path.toList).drop 1).headD [])

/-- The per-request context the authorization gate reads: the request path,
its HTTP method, and the user id bound to the caller's IP in `logged_ips`
(`get_user_id_by_ip`, src/app.py lines 84-97; `none` when the IP has no
entry or the entry's `user` is `None`). -/
structure ReqCtx where
  path : String
  method : String
  userId : Option String
deriving DecidableEq

/-- Python truthiness of `get_user_id_by_ip`'s result (`None` or a string). -/
def pyStrTruthy : Option String → Bool
  | none => false
  | some s => !(s == "")

/-- The value `get_user_id_by_ip` returns, as a Python value (for the
`doc["user"] == current_user` comparisons in `after_req`). -/
def pyValueOfOptStr : Option String → PyValue
  | none => .vnone
  | some s => .vstr s

/-- `has_restrict_access()` (src/app.py lines 100-112), reduced to the
truthiness of its Python return value: on a route whose first path segment
is in `USER_RESTRICTED_ROUTES` it returns
`u_id and (not is_admin(u_id)) and request.method == "GET"`; otherwise the
loop falls through and the function returns `None` (falsy). -/
def has_restrict_access (users : List UserDoc) (ctx : ReqCtx) : Bool :=
  if USER_RESTRICTED_ROUTES.contains (pathSegment1 ctx.path) then
    pyStrTruthy ctx.userId &&
      !(is_admin users (ctx.userId.getD "")) &&
      (ctx.method == "GET")
  else
    false

/-- The `response` payload of a handler's envelope: a list of documents,
a single document, a bare string (inserted ids), or JSON `null`. -/
inductive Payload
  | plist (docs : List Document)
  | pdoc (d : Document)
  | pstr (s : String)
  | pnone
deriving DecidableEq

/-- The response envelope every route returns (src/app.py):
`{"status": code, "response": payload}`. -/
structure Envelope where
  status : Nat
  response : Payload
deriving DecidableEq

/-- Status codes (src/constants.py lines 4-12). -/
def STATUS_SUCCESS : Nat := 0

def STATUS_POINTLESS_REQUEST : Nat := 1

def STATUS_DOCUMENT_NOT_FOUND : Nat := 2

def STATUS_ACCESS_DENIED : Nat := 3

def STATUS_INVALID_JSON_DATA : Nat := 4

def STATUS_DOCUMENT_ALREADY_EXISTS : Nat := 5

/-- The name src/app.py uses for the DocumentNotFound status; the constants
module of this snapshot spells it `STATUS_DOCUMENT_NOT_FOUND = 2`
(spec: DocumentNotFound = 2). -/
def STATUS_NOT_FOUND_DOCUMENT : Nat := STATUS_DOCUMENT_NOT_FOUND

/-- `get_void_response(status_code)` (src/app.py lines 295-308). -/
def get_void_response (status_code : Nat) : Envelope :=
  { status := status_code, response := .pnone }

/-- The list comprehension of `after_req`
(`doc for doc in response["response"] if doc["user"] == current_user`,
src/app.py lines 371-373): keeps, in order, the documents whose `user`
field equals the caller's id; a document without a `user` field raises
`KeyError`. -/
def filterOwned (docs : List Document) (current_user : Option String) :
    Except PyError (List Document) :=
  match docs with
  | [] => .ok []
  | d :: rest =>
    match docLookup d "user" with
    | none => .error .keyError
    | some v =>
      (filterOwned rest current_user).map
        (fun tail => if v == pyValueOfOptStr current_user then d :: tail else tail)

/-- `after_req` (src/app.py lines 344-381), response-transformation part.
When `has_restrict_access()` is truthy it reads the envelope
`{"status": ..., "response": ...}`:
a list payload is filtered to the caller's documents; any other payload is
subscripted with `["user"]` (so a `null` payload raises `TypeError`) and the
envelope is replaced by AccessDenied when that field differs from the
caller's id.  Otherwise the response passes through unchanged.  (`update_log`
only touches the `logged_ips` map and cannot alter the response.) -/
def after_req (users : List UserDoc) (ctx : ReqCtx) (res : Envelope) :
    Except PyError Envelope :=
  if has_restrict_access users ctx then
    match res.response with
    | .plist docs =>
      (filterOwned docs ctx.userId).map
        (fun kept => { status := res.status, response := .plist kept })
    | .pdoc d =>
      match docLookup d "user" with
      | none => .error .keyError
      | some v =>
        if !(v == pyValueOfOptStr ctx.userId) then
          .ok (get_void_response STATUS_ACCESS_DENIED)
        else
          .ok res
    | .pstr _ => .error .typeError
    | .pnone => .error .typeError
  else
    .ok res

/-- A MongoDB collection (src/mongo_collection.py `Collection`): stored
documents keyed by their generated `_id` string, in insertion order.  The
stored body does not repeat the `_id` field. -/
abbrev Collection := List (String × Document)

/-- `Collection.get()`: all documents, each with its `_id` stringified into
the returned dict. -/
def coll_get (c : Collection) : List Document :=
  c.map (fun kv => ("_id", PyValue.vstr kv.1) :: kv.2)

/-- `Collection.find(id)`: the document whose `_id` matches, with `_id`
included, or `None` (`ObjectId` errors and missing documents are caught
and returned as `None`). -/
def coll_find (c : Collection) (id : String) : Option Document :=
  (c.find? (fun kv => kv.1 == id)).map
    (fun kv => ("_id", PyValue.vstr kv.1) :: kv.2)

/-- `Collection.insert(doc)` for a single document: stores it under the
freshly generated id `newId` (the id `insert` returns as `res[0]`). -/
def coll_insert (c : Collection) (newId : String) (doc : Document) : Collection :=
  c ++ [(newId, doc)]

/-- `Collection.update(id, info)`: deletes `info["_id"]` if present, then
replaces the body of the document whose `_id` matches. -/
def coll_update (c : Collection) (id : String) (info : Document) : Collection :=
  c.map (fun kv =>
    if kv.1 == id then (kv.1, info.filter (fun f => !(f.1 == "_id"))) else kv)

/-- `Collection.delete(id)`: removes the document whose `_id` matches. -/
def coll_delete (c : Collection) (id : String) : Collection :=
  c.filter (fun kv => !(kv.1 == id))

/-- `FileCollection.delete_by_filename(filename)`
(src/mongo_collection.py): removes every stored file whose name equals the
given value; the blob store is modelled by its list of stored file names. -/
def filesDeleteByFilename (files : List String) (fv : PyValue) : List String :=
  match fv with
  | .vstr fn => files.filter (fun f => !(f == fn))
  | _ => files

/-- The mutable stores the bill handlers touch: the `clients` and `bills`
collections and the file blob store. -/
structure DB where
  clients : Collection
  bills : Collection
  files : List String
deriving DecidableEq

/-- `TEMPLATE_INSERT_BILL` (src/constants.py lines 68-75). -/
def TEMPLATE_INSERT_BILL : Template :=
  [("ref", .tstr), ("date", .tstr), ("type", .tstr),
   ("description", .tstr), ("file", .tstr), ("client", .tstr)]

/-- The duplicate-`ref` loop of `add_bill`
(`for b in bills.get(): if b["ref"] == request.json["ref"]`,
src/app.py lines 621-623). -/
def checkDupRef (docs : List Document) (refv : PyValue) : Except PyError Bool :=
  match docs with
  | [] => .ok false
  | b :: rest =>
    match docLookup b "ref" with
    | none => .error .keyError
    | some v => if v == refv then .ok true else checkDupRef rest refv

/-- `add_bill` (src/app.py lines 610-643).  `caller` is the id
`get_user_id_by_ip` resolves for the request, `newId` the id Mongo generates
for the inserted bill (`res[0]`), `json` the request body.  After the strict
template check all six fields are present strings; the dict accesses are
gathered up front (a missing key would raise `KeyError`).  When the `client`
field is truthy the named client is looked up and its `bills` list has the
new bill's id appended (`cl["bills"].append(res[0])`); a `None` lookup result
or a non-list `bills` field raises `TypeError`. -/
def add_bill (db : DB) (caller : Option String) (newId : String)
    (json : Document) : Except PyError (DB × Envelope) :=
  if !(valid_doc_datatype json TEMPLATE_INSERT_BILL true) then
    .ok (db, get_void_response STATUS_INVALID_JSON_DATA)
  else
    match docLookup json "ref", docLookup json "date", docLookup json "type",
        docLookup json "description", docLookup json "file",
        docLookup json "client" with
    | some refv, some datev, some typev, some descv, some filev, some clientv =>
      match checkDupRef (coll_get db.bills) refv with
      | .error e => .error e
      | .ok true => .ok (db, get_void_response STATUS_INVALID_JSON_DATA)
      | .ok false =>
        let newDoc : Document :=
          [("ref", refv), ("user", pyValueOfOptStr caller), ("date", datev),
           ("type", typev), ("description", descv), ("file", filev),
           ("client", clientv)]
        let bills' := coll_insert db.bills newId newDoc
        if clientv.truthy then
          match clientv with
          | .vstr cid =>
            match coll_find db.clients cid with
            | none => .error .typeError
            | some cl =>
              match docLookup cl "bills" with
              | some (.vlist l) =>
                .ok ({ db with
                        bills := bills',
                        clients := coll_update db.clients cid
                          (docSet cl "bills" (.vlist (l ++ [newId]))) },
                     { status := STATUS_SUCCESS, response := .pstr newId })
              | some _ => .error .typeError
              | none => .error .keyError
          | _ => .error .typeError
        else
          .ok ({ db with bills := bills' },
               { status := STATUS_SUCCESS, response := .pstr newId })
    | _, _, _, _, _, _ => .error .keyError

/-- `delete_bill` (src/app.py lines 680-702).  Looks the bill up, deletes
its file blobs and the bill document, and returns Success.  The client named
by the bill is never touched. -/
def delete_bill (db : DB) (id : String) : Except PyError (DB × Envelope) :=
  if id == "" then
    .ok (db, get_void_response STATUS_POINTLESS_REQUEST)
  else
    match coll_find db.bills id with
    | none => .ok (db, get_void_response STATUS_NOT_FOUND_DOCUMENT)
    | some doc =>
      match docLookup doc "file" with
      | none => .error .keyError
      | some fv =>
        .ok ({ db with
                files := filesDeleteByFilename db.files fv,
                bills := coll_delete db.bills id },
             get_void_response STATUS_SUCCESS)

/-- The value bound to `set_admin`'s `id` parameter: either a user id string
or the Python builtin function `id` (which is what `remove_admin` passes,
src/app.py line 821). -/
inductive SetAdminArg
  | uid (s : String)
  | builtinId
deriving DecidableEq

/-- `users.find(id)` for either kind of argument: `ObjectId(<builtin
function id>)` raises `TypeError` inside `Collection.find`, which is caught
and returned as `None`, so the builtin can never match a stored user. -/
def set_admin_find (users : List UserDoc) : SetAdminArg → Option UserDoc
  | .uid s => usersFind users s
  | .builtinId => none

/-- `set_admin(id, value)` (src/app.py lines 228-257): not-found and
self-demotion guards, then `user["admin"] = value` and `users.update`.
`caller` is the requesting IP's user id. -/
def set_admin (users : List UserDoc) (caller : Option String)
    (arg : SetAdminArg) (value : Bool) : List UserDoc × Envelope :=
  match set_admin_find users arg with
  | none => (users, get_void_response STATUS_NOT_FOUND_DOCUMENT)
  | some user =>
    if some user._id == caller then
      (users, get_void_response STATUS_INVALID_JSON_DATA)
    else
      (usersUpdate users user._id { user with admin := value },
       get_void_response STATUS_SUCCESS)

/-- `remove_admin(_id)` (src/app.py lines 807-821): after the missing-path-
parameter guard it calls `set_admin(id, False)` — `id` being the Python
builtin function, not the `_id` path parameter. -/
def remove_admin (users : List UserDoc) (caller : Option String)
    (pathId : String) : List UserDoc × Envelope :=
  if pathId == "" then
    (users, get_void_response STATUS_POINTLESS_REQUEST)
  else
    set_admin users caller .builtinId false

/-! Concrete fixtures used by witness and counterexample theorems. -/

/-- A users collection with one non-admin user. -/
def c1Users : List UserDoc :=
  [{ _id := "u1", username := "ana", password := "pw", admin := false }]

/-- A non-admin GET on the restricted route `/clients`. -/
def c1Ctx : ReqCtx := { path := "/clients", method := "GET", userId := some "u1" }

/-- A handler response collection with owners `u1`, `u2`, `u1`. -/
def c1Docs : List Document :=
  [[("_id", .vstr "a"), ("user", .vstr "u1"), ("name", .vstr "X")],
   [("_id", .vstr "b"), ("user", .vstr "u2"), ("name", .vstr "Y")],
   [("_id", .vstr "c"), ("user", .vstr "u1"), ("name", .vstr "Z")]]

/-- A non-admin GET on the restricted route `/client/{id}`. -/
def c2Ctx : ReqCtx :=
  { path := "/client/633d", method := "GET", userId := some "u1" }

/-- A single document owned by a different user, `u2`. -/
def c2Doc : Document :=
  [("_id", .vstr "633d"), ("user", .vstr "u2"), ("name", .vstr "Y")]

/-- A users collection with one admin user. -/
def c3Users : List UserDoc :=
  [{ _id := "u1", username := "ana", password := "pw", admin := true }]

/-- An admin GET on the restricted route `/clients`. -/
def c3Ctx : ReqCtx := { path := "/clients", method := "GET", userId := some "u1" }

/-- A response holding a document the caller does not own. -/
def c3Res : Envelope :=
  { status := 0,
    response := .plist [[("_id", .vstr "b"), ("user", .vstr "u2")]] }

/-- Body of the stored client `c1`, whose `bills` back-link holds `b1`. -/
def c8ClientBody : Document :=
  [("id", .vstr "10"), ("user", .vstr "u1"), ("name", .vstr "Ana"),
   ("phone", .vstr "000"), ("email", .vstr "ana@mail.com"),
   ("address", .vstr "Calle 1"), ("bills", .vlist ["b1"])]

/-- Body of the stored bill `b1`, which names client `c1`. -/
def c8BillBody : Document :=
  [("ref", .vstr "r1"), ("user", .vstr "u1"), ("date", .vstr "2022"),
   ("type", .vstr "invoice"), ("description", .vstr "x"),
   ("file", .vstr "f.pdf"), ("client", .vstr "c1")]

/-- A database with one client, one bill naming it, and the bill's file. -/
def c8DB : DB :=
  { clients := [("c1", c8ClientBody)],
    bills := [("b1", c8BillBody)],
    files := ["f.pdf"] }

/-- A valid request body for `add_bill` naming client `c1`. -/
def c8Json : Document :=
  [("ref", .vstr "r2"), ("date", .vstr "2023"), ("type", .vstr "invoice"),
   ("description", .vstr "y"), ("file", .vstr "g.pdf"), ("client", .vstr "c1")]

/-- What `clients.find("c1")` returns on `c8DB`. -/
def c8ClFound : Document := ("_id", PyValue.vstr "c1") :: c8ClientBody

/-- The database after `delete_bill c8DB "b1"`: the bill and its file are
gone, the clients collection untouched. -/
def c8AfterDel : DB := { c8DB with bills := [], files := [] }

/-! Helper lemmas. -/

/-- Under the restricted-access conditions (restricted first path segment,
GET, a logged non-admin caller with a non-empty id), `has_restrict_access`
is truthy. -/
theorem has_restrict_access_true (users : List UserDoc) (ctx : ReqCtx)
    (uid : String)
    (hroute : USER_RESTRICTED_ROUTES.contains (pathSegment1 ctx.path) = true)
    (hmethod : ctx.method = "GET")
    (huid : ctx.userId = some uid)
    (hne : uid ≠ "")
    (hadmin : is_admin users uid = false) :
    has_restrict_access users ctx = true := by
  have hne' : (uid == "") = false := by simpa using hne
  simp only [has_restrict_access, hroute, if_true, huid, hmethod]
  simp [pyStrTruthy, hadmin, hne']

/-- When every document carries a `user` field, the `after_req`
comprehension succeeds and equals a `List.filter` on that field. -/
theorem filterOwned_eq_filter (docs : List Document) (cu : Option String)
    (h : ∀ d ∈ docs, (docLookup d "user").isSome) :
    filterOwned docs cu =
      .ok (docs.filter
        (fun d => docLookup d "user" == some (pyValueOfOptStr cu))) := by
  induction docs with
  | nil => rfl
  | cons d rest ih =>
    obtain ⟨v, hv⟩ := Option.isSome_iff_exists.mp (h d (by simp))
    have hrest := ih (fun x hx => h x (by simp [hx]))
    simp only [filterOwned, hv, hrest, Except.map, List.filter_cons]
    by_cases hveq : v == pyValueOfOptStr cu
    · simp [hveq]
    · simp [hveq]

/-! Claim theorems. -/

/-- C1: for a non-admin authenticated caller making a GET request to a
restricted route (`clients`, `client`, `bills`) whose handler returns a
collection of documents, the post-handler ownership filter keeps exactly
the documents whose `user` field equals the caller's id, in the original
relative order (the result is `List.filter` of the ownership predicate). -/
theorem after_req_filters_collection_to_owner
    (users : List UserDoc) (ctx : ReqCtx) (status : Nat)
    (docs : List Document) (uid : String)
    (hroute : USER_RESTRICTED_ROUTES.contains (pathSegment1 ctx.path) = true)
    (hmethod : ctx.method = "GET")
    (huid : ctx.userId = some uid)
    (hne : uid ≠ "")
    (hadmin : is_admin users uid = false)
    (hfields : ∀ d ∈ docs, (docLookup d "user").isSome) :
    after_req users ctx { status := status, response := .plist docs } =
      .ok { status := status,
            response := .plist (docs.filter
              (fun d => docLookup d "user" == some (PyValue.vstr uid))) } := by
  have hra := has_restrict_access_true users ctx uid hroute hmethod huid hne hadmin
  have hfo := filterOwned_eq_filter docs ctx.userId hfields
  rw [huid] at hfo
  simp [after_req, hra, huid, hfo, Except.map, pyValueOfOptStr]

/-- C1 witness: on the `/clients` route, user `u1` sees exactly its own two
documents, in order. -/
theorem after_req_filters_collection_to_owner_witness :
    (∀ d ∈ c1Docs, (docLookup d "user").isSome) ∧
    after_req c1Users c1Ctx { status := 0, response := .plist c1Docs } =
      .ok { status := 0,
            response := .plist (c1Docs.filter
              (fun d => docLookup d "user" == some (PyValue.vstr "u1"))) } :=
  ⟨by decide,
   after_req_filters_collection_to_owner c1Users c1Ctx 0 c1Docs "u1"
     (by decide) rfl rfl (by decide) (by decide) (by decide)⟩

/-- C2: for a non-admin authenticated caller making a GET request to a
restricted route whose handler returns a single document, the response is
replaced by the AccessDenied envelope (status 3) when the document's
`user` field differs from the caller's id, and passes through unchanged
when it equals it. -/
theorem after_req_single_doc_ownership
    (users : List UserDoc) (ctx : ReqCtx) (status : Nat)
    (d : Document) (uid : String) (v : PyValue)
    (hroute : USER_RESTRICTED_ROUTES.contains (pathSegment1 ctx.path) = true)
    (hmethod : ctx.method = "GET")
    (huid : ctx.userId = some uid)
    (hne : uid ≠ "")
    (hadmin : is_admin users uid = false)
    (hv : docLookup d "user" = some v) :
    after_req users ctx { status := status, response := .pdoc d } =
      (if v = .vstr uid then .ok { status := status, response := .pdoc d }
       else .ok (get_void_response STATUS_ACCESS_DENIED)) := by
  have hra := has_restrict_access_true users ctx uid hroute hmethod huid hne hadmin
  by_cases hveq : v = .vstr uid
  · simp [after_req, hra, huid, hv, hveq, pyValueOfOptStr]
  · simp [after_req, hra, huid, hv, hveq, pyValueOfOptStr]

/-- C2 witness: user `u1` requesting a document owned by `u2` gets the
AccessDenied envelope. -/
theorem after_req_single_doc_ownership_witness :
    (docLookup c2Doc "user" = some (.vstr "u2")) ∧
    after_req c1Users c2Ctx { status := 0, response := .pdoc c2Doc } =
      .ok (get_void_response STATUS_ACCESS_DENIED) := by
  refine ⟨by decide, ?_⟩
  have h := after_req_single_doc_ownership c1Users c2Ctx 0 c2Doc "u1"
    (.vstr "u2") (by decide) rfl rfl (by decide) (by decide) (by decide)
  simpa using h

/-- C3: the ownership filter is never applied for an admin caller, nor for
a non-GET request: the handler's response passes through unchanged, even
when it holds documents whose `user` field differs from the caller's id. -/
theorem after_req_skips_admin_and_non_get
    (users : List UserDoc) (ctx : ReqCtx) (res : Envelope)
    (h : (∃ u, ctx.userId = some u ∧ is_admin users u = true) ∨
         ctx.method ≠ "GET") :
    after_req users ctx res = .ok res := by
  have hra : has_restrict_access users ctx = false := by
    unfold has_restrict_access
    split
    · rcases h with ⟨u, hu, hadm⟩ | hm
      · rw [hu]
        by_cases hu0 : u = ""
        · simp [pyStrTruthy, hu0]
        · have hu0' : (u == "") = false := by simpa using hu0
          simp [pyStrTruthy, hu0', hadm]
      · have hm' : (ctx.method == "GET") = false := by simpa using hm
        simp [hm']
    · rfl
  simp [after_req, hra]

/-- C3 witness: an admin caller on `/clients` sees a foreign document
unfiltered. -/
theorem after_req_skips_admin_and_non_get_witness :
    is_admin c3Users "u1" = true ∧
    after_req c3Users c3Ctx c3Res = .ok c3Res :=
  ⟨by decide,
   after_req_skips_admin_and_non_get c3Users c3Ctx c3Res
     (Or.inl ⟨"u1", rfl, by decide⟩)⟩

/-- C4 counterexample: in strict mode a document with an extra key `b` not
in the template still validates, so strict validity is not equivalent to
exact key-set match. -/
theorem strict_validation_tolerates_extra_keys :
    valid_doc_datatype [("a", .vint 0), ("b", .vstr "x")] [("a", .tint)]
      true = true ∧
    (tmplKeys [("a", .tint)]).contains "b" = false ∧
    strict_spec_valid [("a", .vint 0), ("b", .vstr "x")] [("a", .tint)]
      = false := by
  refine ⟨rfl, rfl, rfl⟩

/-- C4 amended: strict-mode validation returns true iff every template key
is present in the document with a value of the matching kind; extra document
keys are tolerated. -/
theorem strict_validation_iff_template_keys_match
    (document : Document) (template : Template) :
    valid_doc_datatype document template true = true ↔
      ∀ kv ∈ template, ∃ v,
        docLookup document kv.1 = some v ∧ v.type = kv.2 := by
  rw [show valid_doc_datatype document template true
        = strict_validation document template from rfl,
      strict_validation, List.all_eq_true]
  refine forall_congr' fun kv => imp_congr_right fun _ => ?_
  cases h : docLookup document kv.1 with
  | none => simp [h]
  | some v => simp [h]

/-- C5 counterexample: in non-strict mode a document whose only key is
absent from the template still validates, so a document key outside the
template does not make the document invalid. -/
theorem non_strict_validation_tolerates_unknown_keys :
    valid_doc_datatype [("x", .vint 0)] [] false = true ∧
    non_strict_spec_valid [("x", .vint 0)] [] = false := by
  refine ⟨rfl, rfl⟩

/-- C5 amended: non-strict validation returns true iff every template key
that is present in the document has a value of the matching kind; document
keys outside the template are ignored. -/
theorem non_strict_validation_iff_present_template_keys_match
    (document : Document) (template : Template) :
    valid_doc_datatype document template false = true ↔
      ∀ kv ∈ template, ∀ v,
        docLookup document kv.1 = some v → v.type = kv.2 := by
  rw [show valid_doc_datatype document template false
        = non_strict_validation document template from rfl,
      non_strict_validation, List.all_eq_true]
  refine forall_congr' fun kv => imp_congr_right fun _ => ?_
  cases h : docLookup document kv.1 with
  | none => simp [h]
  | some v => simp [h]

/-- C6: a null payload on a restricted route is not recovered: for a logged
non-admin caller, a GET on `/client/{id}` whose handler produced the
DocumentNotFound envelope `{status: 2, response: null}` makes `after_req`
subscript `None` and raise `TypeError`, which leaves the route layer as an
unhandled exception instead of an envelope. -/
theorem after_req_null_payload_type_error :
    after_req c1Users
      { path := "/client/633d7afbc78557eed1fa40ea", method := "GET",
        userId := some "u1" }
      { status := STATUS_DOCUMENT_NOT_FOUND, response := .pnone } =
    .error .typeError := rfl

/-- C7: `valid_username` is not the claimed length-and-alphanumeric
predicate: `"ab"` is indeed rejected for length, but every username of
valid length — including the claimed-accepted `"ValidUser1"` and the
claimed-rejected `"valid_user1"` — raises `TypeError`, because the code
takes `len` of a generator expression. -/
theorem valid_username_raises_type_error :
    valid_username "ab" = .ok false ∧
    valid_username "valid_user1" = .error .typeError ∧
    valid_username "ValidUser1" = .error .typeError :=
  ⟨rfl, rfl, rfl⟩

/-- C9: after one run of the sweep, a session entry is present iff it was
present before and its elapsed time since last activity does not exceed
`LOG_TIMEOUT`; entries over the threshold are absent, entries within the
window survive. -/
theorem timeout_check_membership (now : Int) (m : List (String × LogEntry))
    (k : String) (e : LogEntry) :
    (k, e) ∈ timeout_check now m ↔
      ((k, e) ∈ m ∧ now - e.lastrequest ≤ LOG_TIMEOUT) := by
  simp [timeout_check, List.mem_filter, not_lt]

/-- C10: `remove_admin` never modifies the users collection: it passes the
Python builtin function `id` to `set_admin`, whose lookup therefore never
matches any user, so the collection is returned unchanged for every path
parameter, caller and users collection. -/
theorem remove_admin_never_modifies_users
    (users : List UserDoc) (caller : Option String) (pathId : String) :
    (remove_admin users caller pathId).1 = users := by
  unfold remove_admin
  split
  · rfl
  · rfl

/-- C8 counterexample: deleting bill `b1`, which names client `c1`, removes
the bill but leaves `c1`'s `bills` back-link still containing `"b1"`. -/
theorem delete_bill_leaves_backlink :
    delete_bill c8DB "b1" = .ok (c8AfterDel, get_void_response STATUS_SUCCESS) ∧
    coll_find c8AfterDel.bills "b1" = none ∧
    (coll_find c8AfterDel.clients "c1").bind
      (fun cl => docLookup cl "bills") = some (.vlist ["b1"]) := by
  refine ⟨rfl, rfl, rfl⟩

/-- C8 amended: bill creation maintains the client-side back-link — when a
bill naming an existing client is created, the new bill's id is appended to
that client's `bills` list — but bill deletion does not: `delete_bill`
always leaves the clients collection unchanged. -/
theorem bill_backlink_creation_only :
    (∀ (db : DB) (caller : Option String) (newId : String) (json : Document)
       (refv datev typev descv filev : PyValue) (cid : String)
       (cl : Document) (l : List String),
       docLookup json "ref" = some refv →
       docLookup json "date" = some datev →
       docLookup json "type" = some typev →
       docLookup json "description" = some descv →
       docLookup json "file" = some filev →
       docLookup json "client" = some (.vstr cid) →
       valid_doc_datatype json TEMPLATE_INSERT_BILL true = true →
       checkDupRef (coll_get db.bills) refv = .ok false →
       cid ≠ "" →
       coll_find db.clients cid = some cl →
       docLookup cl "bills" = some (.vlist l) →
       add_bill db caller newId json =
         .ok ({ db with
                 bills := coll_insert db.bills newId
                   [("ref", refv), ("user", pyValueOfOptStr caller),
                    ("date", datev), ("type", typev), ("description", descv),
                    ("file", filev), ("client", .vstr cid)],
                 clients := coll_update db.clients cid
                   (docSet cl "bills" (.vlist (l ++ [newId]))) },
              { status := STATUS_SUCCESS, response := .pstr newId })) ∧
    (∀ (db : DB) (id : String) (db' : DB) (env : Envelope),
       delete_bill db id = .ok (db', env) → db'.clients = db.clients) := by
  constructor
  · intro db caller newId json refv datev typev descv filev cid cl l
      href hdate htype hdesc hfile hclient hvalid hdup hcid hfind hbills
    have hcid' : (cid == "") = false := by simpa using hcid
    simp only [add_bill, hvalid, Bool.not_true, Bool.false_eq_true,
      if_false, href, hdate, htype, hdesc, hfile, hclient, hdup, hfind,
      hbills, PyValue.truthy, hcid', Bool.not_false, if_true]
  · intro db id db' env h
    unfold delete_bill at h
    split at h
    · rw [Except.ok.injEq, Prod.mk.injEq] at h
      rw [← h.1]
    · split at h
      · rw [Except.ok.injEq, Prod.mk.injEq] at h
        rw [← h.1]
      · split at h
        · exact absurd h (by simp)
        · rw [Except.ok.injEq, Prod.mk.injEq] at h
          rw [← h.1]

/-- C8 witness: on the concrete database, creating bill `b2` for client
`c1` appends `"b2"` to `c1`'s back-link, and deleting bill `b1` leaves the
clients collection unchanged. -/
theorem bill_backlink_creation_only_witness :
    (valid_doc_datatype c8Json TEMPLATE_INSERT_BILL true = true ∧
     add_bill c8DB (some "u1") "b2" c8Json =
       .ok ({ c8DB with
               bills := coll_insert c8DB.bills "b2"
                 [("ref", .vstr "r2"), ("user", pyValueOfOptStr (some "u1")),
                  ("date", .vstr "2023"), ("type", .vstr "invoice"),
                  ("description", .vstr "y"), ("file", .vstr "g.pdf"),
                  ("client", .vstr "c1")],
               clients := coll_update c8DB.clients "c1"
                 (docSet c8ClFound "bills" (.vlist (["b1"] ++ ["b2"]))) },
            { status := STATUS_SUCCESS, response := .pstr "b2" })) ∧
    (delete_bill c8DB "b1" =
       .ok (c8AfterDel, get_void_response STATUS_SUCCESS) ∧
     c8AfterDel.clients = c8DB.clients) :=
  ⟨⟨rfl,
    bill_backlink_creation_only.1 c8DB (some "u1") "b2" c8Json
      (.vstr "r2") (.vstr "2023") (.vstr "invoice") (.vstr "y")
      (.vstr "g.pdf") "c1" c8ClFound ["b1"]
      rfl rfl rfl rfl rfl rfl rfl rfl (by decide) rfl rfl⟩,
   ⟨rfl,
    bill_backlink_creation_only.2 c8DB "b1" c8AfterDel
      (get_void_response STATUS_SUCCESS) rfl⟩⟩
